import Mathlib

/-
Shallow embedding of src/simplevent/simplevent.py (Simplevent).

The library has an abstract base class Event holding a subscriber list,
and two concrete dispatchers: StrEvent (name dispatch: each subscriber is
queried for a method named after the event) and RefEvent (reference
dispatch: each subscriber is itself a callable).  Registry operations
add / insert / remove live on the base class; each variant supplies a
validator and a __call__ implementation.

Python exceptions are modelled as an error value; an operation returns the
registry after the call together with the exception that escaped, if any
(a raised exception leaves self._subs exactly as it was).  Invocation
returns, in addition, the trace of subscriber calls actually performed, in
order, so that fan-out behaviour is observable.
-/

/-- Exception classes raised by the library or by the Python runtime while
executing it.  The first four are the classes declared at the bottom of
simplevent.py.  `valueError` is the builtin ValueError raised by
`list.remove` on a missing element (the spec's SubscriberNotFound kind, and
the class the repository's own unit test asserts).  `attributeError` is the
builtin AttributeError raised by two-argument `getattr` on a missing
attribute.  `typeError` is the builtin TypeError raised by calling a
non-callable object. -/
inductive PyError where
  | invalidEventName
  | subscriberSignatureMismatch
  | eventCallParameterListMismatch
  | subscriberIsNotCallable
  | valueError
  | attributeError
  | typeError
  deriving DecidableEq, Repr

/-- Type descriptors Python code passes as RefEvent parameter types: plain
classes, typing.Any, and subscripted generics such as list applied to int,
whose `__origin__` attribute is the plain class.  A multi-argument
subscript is modelled by nesting in `arg`; no code path in the repository
reads the subscript, only the origin. -/
inductive PyType where
  | intT
  | strT
  | boolT
  | noneT
  | listT
  | dictT
  | anyT
  | generic (origin : PyType) (arg : PyType)
  deriving DecidableEq, Repr

/-- Models `getattr(t, "__origin__", None)`: a subscripted generic exposes
its origin class; every other descriptor yields None. -/
def PyType.originOf : PyType → Option PyType
  | .generic o _ => some o
  | _ => Option.none

/-- Runtime values passed as event arguments.  Container values lie outside
the modelled argument domain; the soft type check only ever inspects the
top-level class of a value. -/
inductive PyVal where
  | vnone
  | vint (n : Int)
  | vstr (s : String)
  | vbool (b : Bool)
  deriving DecidableEq, Repr

/-- Models `isinstance(v, t)` for the descriptors above.  Python's bool is
a subclass of int, so a bool value is an instance of int.  `isinstance`
against typing.Any accepts every value.  A subscripted generic never
reaches isinstance in this code base, because RefEvent.__call__ extracts
its origin first. -/
def pyIsInstance (v : PyVal) : PyType → Bool
  | .anyT => true
  | .intT => match v with
    | .vint _ => true
    | .vbool _ => true
    | _ => false
  | .strT => match v with
    | .vstr _ => true
    | _ => false
  | .boolT => match v with
    | .vbool _ => true
    | _ => false
  | .noneT => match v with
    | .vnone => true
    | _ => false
  | .listT => false
  | .dictT => false
  | .generic _ _ => false

/-- Result of invoking an event: the registry after the call, the
subscriber calls performed in order, and the exception that escaped, if
any. -/
structure CallResult (σ : Type) (ρ : Type) where
  subsAfter : List σ
  trace : List ρ
  err : Option PyError
  deriving DecidableEq, Repr

/- ## Shared base class Event: registry operations -/

/-- Python list.insert index clamping: a negative index counts from the end
and clamps at 0; a non-negative index clamps at the length. -/
def pyClampIdx (i : Int) (n : Nat) : Nat :=
  if i < 0 then ((n : Int) + i).toNat else min i.toNat n

/-- Models Python `list.insert(i, x)`: insert before the clamped index.
Never fails, whatever the index. -/
def pyListInsert {σ : Type} (i : Int) (x : σ) (xs : List σ) : List σ :=
  xs.take (pyClampIdx i xs.length) ++ x :: xs.drop (pyClampIdx i xs.length)

/-- Models Event.add: run the variant's validator, then no-op when the
subscriber is already present by equality, else append to the end. -/
def eventAdd {σ : Type} [DecidableEq σ] (validate : σ → Option PyError)
    (subs : List σ) (s : σ) : List σ × Option PyError :=
  match validate s with
  | some e => (subs, some e)
  | Option.none =>
    if s ∈ subs then (subs, Option.none) else (subs ++ [s], Option.none)

/-- Models Event.insert: same validation and dedup rule as add, but the new
subscriber goes through `self._subs.insert(i, subscriber)`. -/
def eventInsert {σ : Type} [DecidableEq σ] (validate : σ → Option PyError)
    (subs : List σ) (i : Int) (s : σ) : List σ × Option PyError :=
  match validate s with
  | some e => (subs, some e)
  | Option.none =>
    if s ∈ subs then (subs, Option.none) else (pyListInsert i s subs, Option.none)

/-- Models Event.remove, which is `self._subs.remove(subscriber)`: remove
the first equal match, or raise ValueError when the subscriber is absent,
leaving the list unchanged. -/
def eventRemove {σ : Type} [DecidableEq σ] (subs : List σ) (s : σ) :
    List σ × Option PyError :=
  if s ∈ subs then (subs.erase s, Option.none)
  else (subs, some PyError.valueError)

/- ## StrEvent: name dispatch -/

/-- An attribute value found on a subscriber object: Python None, a bound
method (callable, tagged with an identity), or a plain non-callable
value. -/
inductive Attr where
  | anone
  | method (mid : Nat)
  | plain (v : PyVal)
  deriving DecidableEq, Repr

/-- A registry entry of a StrEvent: Python None, or an object carrying an
attribute dictionary.  `oid` is the object identity, so two distinct
subscribers with equal attribute lists stay distinguishable. -/
inductive StrSub where
  | none
  | obj (oid : Nat) (attrs : List (String × Attr))
  deriving DecidableEq, Repr

/-- True exactly on the Python None entry. -/
def StrSub.isNone : StrSub → Bool
  | StrSub.none => true
  | StrSub.obj _ _ => false

/-- Models two-argument `getattr(obj, name)`: the first binding of `name`
in the attribute dictionary, or lookup failure (AttributeError at the call
site) when the attribute is missing. -/
def lookupAttr (attrs : List (String × Attr)) (name : String) : Option Attr :=
  (attrs.find? (fun p => p.1 == name)).map Prod.snd

/-- First character of a valid event name: a letter or an underscore. -/
def isIdentStart (c : Char) : Bool := c.isAlpha || c == '_'

/-- Later characters of a valid event name: letters, digits or
underscores. -/
def isIdentChar (c : Char) : Bool := c.isAlphanum || c == '_'

/-- Models re.match of the StrEvent name pattern (an identifier) against
the whole string. -/
def validEventName (s : String) : Bool :=
  match s.data with
  | [] => false
  | c :: cs => isIdentStart c && cs.all isIdentChar

/-- The fixed contract of a StrEvent: the callback name and the parameter
names, both immutable after construction. -/
structure StrEvent where
  callback : String
  params : List String
  deriving DecidableEq, Repr

/-- Models the StrEvent constructor: the callback name must be a string
matching the identifier pattern, else InvalidEventNameError. -/
def StrEvent.make (callback : String) (params : List String) :
    Except PyError StrEvent :=
  if validEventName callback then Except.ok ⟨callback, params⟩
  else Except.error PyError.invalidEventName

/-- Models StrEvent._validate_subscriber: any subscriber is valid. -/
def StrEvent.validate (_ : StrEvent) (_ : StrSub) : Option PyError :=
  Option.none

/-- A record of one subscriber method actually called during a StrEvent
fan-out: object identity, method identity, and the keyword-argument map the
method received. -/
structure StrCall where
  oid : Nat
  mid : Nat
  kwargs : List (String × PyVal)
  deriving DecidableEq, Repr

/-- The subscriber loop of StrEvent.__call__, translated line by line:
None entries are skipped; `function = getattr(subscriber, self._callback)`
raises AttributeError when the attribute is missing, aborting the remaining
fan-out; an attribute that is None or not callable is skipped; a callable
attribute is called with the keyword arguments. -/
def strFan (callback : String) (kwargs : List (String × PyVal)) :
    List StrSub → List StrCall × Option PyError
  | [] => ([], Option.none)
  | StrSub.none :: rest => strFan callback kwargs rest
  | StrSub.obj oid attrs :: rest =>
    match lookupAttr attrs callback with
    | Option.none => ([], some PyError.attributeError)
    | some (Attr.method mid) =>
      let r := strFan callback kwargs rest
      (⟨oid, mid, kwargs⟩ :: r.1, r.2)
    | some _ => strFan callback kwargs rest

/-- Models StrEvent.__call__: the argument count must equal the number of
parameter names, else EventCallParameterListMismatchError before any
subscriber is touched; then each argument is bound to its parameter name
and the fan-out loop runs.  The method never writes self._subs. -/
def StrEvent.call (e : StrEvent) (subs : List StrSub) (args : List PyVal) :
    CallResult StrSub StrCall :=
  if args.length ≠ e.params.length then
    ⟨subs, [], some PyError.eventCallParameterListMismatch⟩
  else
    let r := strFan e.callback (e.params.zip args) subs
    ⟨subs, r.1, r.2⟩

/- ## RefEvent: reference dispatch -/

/-- A parameter annotation as seen through inspect.signature: absent
(Parameter.empty) or a type descriptor (typing.Any is the descriptor
anyT). -/
inductive Ann where
  | empty
  | ty (t : PyType)
  deriving DecidableEq, Repr

/-- A registry entry of a RefEvent: Python None, a callable with the
declared annotations of its parameters (`fid` is the function identity), or
a non-callable object. -/
inductive RefSub where
  | none
  | callable (fid : Nat) (anns : List Ann)
  | notCallable (oid : Nat)
  deriving DecidableEq, Repr

/-- True exactly on the Python None entry. -/
def RefSub.isNone : RefSub → Bool
  | RefSub.none => true
  | RefSub.callable _ _ => false
  | RefSub.notCallable _ => false

/-- The fixed contract of a RefEvent: the parameter types, immutable after
construction. -/
structure RefEvent where
  param_types : List PyType
  deriving DecidableEq, Repr

/-- The per-position annotation loop of RefEvent._validate_subscriber,
translated literally: is_type_same compares the declared annotation with
the event's parameter type; is_type_any is the source's conjunction,
annotation equal to Parameter.empty AND annotation equal to typing.Any.
When neither holds, SubscriberSignatureMismatchError. -/
def refCheckAnns : List Ann → List PyType → Option PyError
  | a :: as, t :: ts =>
    let is_type_same := a == Ann.ty t
    let is_type_any := (a == Ann.empty) && (a == Ann.ty PyType.anyT)
    if !is_type_same && !is_type_any then
      some PyError.subscriberSignatureMismatch
    else refCheckAnns as ts
  | _, _ => Option.none

/-- Models RefEvent._validate_subscriber: the subscriber must be callable
(else SubscriberIsNotCallableError); its declared parameter count must
equal the event's (too many, then too few, both
SubscriberSignatureMismatchError); then the per-position annotation
check runs. -/
def RefEvent.validate (e : RefEvent) : RefSub → Option PyError
  | RefSub.none => some PyError.subscriberIsNotCallable
  | RefSub.notCallable _ => some PyError.subscriberIsNotCallable
  | RefSub.callable _ anns =>
    if anns.length > e.param_types.length then
      some PyError.subscriberSignatureMismatch
    else if anns.length < e.param_types.length then
      some PyError.subscriberSignatureMismatch
    else refCheckAnns anns e.param_types

/-- The per-argument soft type check of RefEvent.__call__: each argument in
order must be an instance of its parameter type, or of that type's generic
origin when one exists; the first failure raises
EventCallParameterListMismatchError. -/
def refSoftCheck : List PyVal → List PyType → Option PyError
  | a :: as, t :: ts =>
    if pyIsInstance a ((PyType.originOf t).getD t) then refSoftCheck as ts
    else some PyError.eventCallParameterListMismatch
  | _, _ => Option.none

/-- A record of one subscriber actually called during a RefEvent fan-out:
function identity and the positional arguments it received. -/
structure RefCall where
  fid : Nat
  args : List PyVal
  deriving DecidableEq, Repr

/-- The subscriber loop of RefEvent.__call__: None entries are skipped and
never removed; every other entry is called with the positional arguments.
Calling a non-callable entry would raise TypeError; admission keeps such
entries out, but the model retains the case for faithfulness. -/
def refFan (args : List PyVal) : List RefSub → List RefCall × Option PyError
  | [] => ([], Option.none)
  | RefSub.none :: rest => refFan args rest
  | RefSub.callable fid _ :: rest =>
    let r := refFan args rest
    (⟨fid, args⟩ :: r.1, r.2)
  | RefSub.notCallable _ :: _ => ([], some PyError.typeError)

/-- Models RefEvent.__call__: arity checks against the parameter types (too
many, then too few, both EventCallParameterListMismatchError), then the
per-argument soft type checks, then fan-out.  The method never writes
self._subs. -/
def RefEvent.call (e : RefEvent) (subs : List RefSub) (args : List PyVal) :
    CallResult RefSub RefCall :=
  if args.length > e.param_types.length then
    ⟨subs, [], some PyError.eventCallParameterListMismatch⟩
  else if args.length < e.param_types.length then
    ⟨subs, [], some PyError.eventCallParameterListMismatch⟩
  else
    match refSoftCheck args e.param_types with
    | some err => ⟨subs, [], some err⟩
    | Option.none =>
      let r := refFan args subs
      ⟨subs, r.1, r.2⟩

/- ## Sequences of registry operations -/

/-- One registry operation on a dispatcher. -/
inductive RegOp (σ : Type) where
  | add (s : σ)
  | ins (i : Int) (s : σ)
  | remove (s : σ)
  deriving DecidableEq, Repr

/-- True exactly on an insert operation. -/
def RegOp.isIns {σ : Type} : RegOp σ → Bool
  | RegOp.ins _ _ => true
  | _ => false

/-- Applies one registry operation, keeping the registry state the
operation leaves behind. -/
def applyOp {σ : Type} [DecidableEq σ] (validate : σ → Option PyError)
    (subs : List σ) : RegOp σ → List σ × Option PyError
  | RegOp.add s => eventAdd validate subs s
  | RegOp.ins i s => eventInsert validate subs i s
  | RegOp.remove s => eventRemove subs s

/-- Runs a sequence of registry operations from a starting registry. -/
def runOps {σ : Type} [DecidableEq σ] (validate : σ → Option PyError)
    (subs : List σ) : List (RegOp σ) → List σ
  | [] => subs
  | op :: ops => runOps validate (applyOp validate subs op).1 ops

/-- The admission sequence of a run: the subscribers actually admitted into
the registry (valid and not yet present at their operation), in the order
they were admitted. -/
def admittedSeq {σ : Type} [DecidableEq σ] (validate : σ → Option PyError)
    (subs : List σ) : List (RegOp σ) → List σ
  | [] => []
  | op :: ops =>
    let rest := admittedSeq validate (applyOp validate subs op).1 ops
    match op with
    | RegOp.add s =>
      if validate s = Option.none ∧ s ∉ subs then s :: rest else rest
    | RegOp.ins _ s =>
      if validate s = Option.none ∧ s ∉ subs then s :: rest else rest
    | RegOp.remove _ => rest

/- ## Helper lemmas -/

theorem pyClampIdx_le (i : Int) (n : Nat) : pyClampIdx i n ≤ n := by
  unfold pyClampIdx
  split
  · omega
  · exact min_le_right _ _

theorem pyListInsert_perm {σ : Type} (i : Int) (x : σ) (xs : List σ) :
    (pyListInsert i x xs).Perm (x :: xs) := by
  have h : (xs.take (pyClampIdx i xs.length) ++ x :: xs.drop (pyClampIdx i xs.length)).Perm
      (x :: (xs.take (pyClampIdx i xs.length) ++ xs.drop (pyClampIdx i xs.length))) :=
    List.perm_middle
  rw [List.take_append_drop] at h
  exact h

theorem pyListInsert_length {σ : Type} (i : Int) (x : σ) (xs : List σ) :
    (pyListInsert i x xs).length = xs.length + 1 := by
  simpa using (pyListInsert_perm i x xs).length_eq

theorem pyListInsert_nodup {σ : Type} (i : Int) (x : σ) (xs : List σ)
    (hx : x ∉ xs) (hnd : xs.Nodup) : (pyListInsert i x xs).Nodup :=
  ((pyListInsert_perm i x xs).symm).nodup (List.nodup_cons.2 ⟨hx, hnd⟩)

theorem append_singleton_nodup {σ : Type} (x : σ) (xs : List σ)
    (hx : x ∉ xs) (hnd : xs.Nodup) : (xs ++ [x]).Nodup := by
  have h : (xs ++ x :: ([] : List σ)).Perm (x :: (xs ++ [])) := List.perm_middle
  simp only [List.append_nil] at h
  exact (h.symm).nodup (List.nodup_cons.2 ⟨hx, hnd⟩)

theorem refSoftCheck_err : ∀ (as : List PyVal) (ts : List PyType),
    refSoftCheck as ts = Option.none ∨
      refSoftCheck as ts = some PyError.eventCallParameterListMismatch
  | [], ts => by cases ts <;> exact Or.inl rfl
  | _ :: _, [] => Or.inl rfl
  | a :: as, t :: ts => by
    by_cases hp : pyIsInstance a ((PyType.originOf t).getD t) = true
    · simpa [refSoftCheck, hp] using refSoftCheck_err as ts
    · simp [refSoftCheck, hp]

theorem StrSub.isNone_on_none : StrSub.isNone StrSub.none = true := rfl

theorem StrSub.isNone_obj (oid : Nat) (attrs : List (String × Attr)) :
    StrSub.isNone (StrSub.obj oid attrs) = false := rfl

theorem RefSub.refIsNone_on_none : RefSub.isNone RefSub.none = true := rfl

theorem RefSub.isNone_callable (fid : Nat) (anns : List Ann) :
    RefSub.isNone (RefSub.callable fid anns) = false := rfl

theorem RefSub.isNone_notCallable (oid : Nat) :
    RefSub.isNone (RefSub.notCallable oid) = false := rfl

theorem strFan_filter (cb : String) (kwargs : List (String × PyVal)) :
    ∀ subs : List StrSub,
      strFan cb kwargs (subs.filter (fun s => !StrSub.isNone s))
        = strFan cb kwargs subs
  | [] => rfl
  | StrSub.none :: rest => by
    simpa [List.filter_cons, StrSub.isNone_on_none, strFan]
      using strFan_filter cb kwargs rest
  | StrSub.obj oid attrs :: rest => by
    have ih := strFan_filter cb kwargs rest
    cases h : lookupAttr attrs cb with
    | none => simp [List.filter_cons, StrSub.isNone_obj, strFan, h]
    | some a =>
      cases a with
      | anone => simp [List.filter_cons, StrSub.isNone_obj, strFan, h, ih]
      | method mid => simp [List.filter_cons, StrSub.isNone_obj, strFan, h, ih]
      | plain v => simp [List.filter_cons, StrSub.isNone_obj, strFan, h, ih]

theorem refFan_filter (args : List PyVal) :
    ∀ subs : List RefSub,
      refFan args (subs.filter (fun s => !RefSub.isNone s)) = refFan args subs
  | [] => rfl
  | RefSub.none :: rest => by
    simpa [List.filter_cons, RefSub.refIsNone_on_none, refFan]
      using refFan_filter args rest
  | RefSub.callable fid anns :: rest => by
    simp [List.filter_cons, RefSub.isNone_callable, refFan, refFan_filter args rest]
  | RefSub.notCallable oid :: rest => by
    simp [List.filter_cons, RefSub.isNone_notCallable, refFan]

theorem applyOp_nodup {σ : Type} [DecidableEq σ] (validate : σ → Option PyError)
    (subs : List σ) (op : RegOp σ) (h : subs.Nodup) :
    ((applyOp validate subs op).1).Nodup := by
  cases op with
  | add s =>
    simp only [applyOp, eventAdd]
    cases validate s with
    | some e => exact h
    | none =>
      by_cases hm : s ∈ subs
      · simpa [hm] using h
      · simpa [hm] using append_singleton_nodup s subs hm h
  | ins i s =>
    simp only [applyOp, eventInsert]
    cases validate s with
    | some e => exact h
    | none =>
      by_cases hm : s ∈ subs
      · simpa [hm] using h
      · simpa [hm] using pyListInsert_nodup i s subs hm h
  | remove s =>
    simp only [applyOp, eventRemove]
    by_cases hm : s ∈ subs
    · simpa [hm] using h.erase s
    · simpa [hm] using h

theorem runOps_nodup {σ : Type} [DecidableEq σ] (validate : σ → Option PyError) :
    ∀ (ops : List (RegOp σ)) (subs : List σ), subs.Nodup →
      (runOps validate subs ops).Nodup
  | [], _, h => h
  | op :: ops, subs, h =>
    runOps_nodup validate ops _ (applyOp_nodup validate subs op h)

theorem runOps_sublist_admitted {σ : Type} [DecidableEq σ]
    (validate : σ → Option PyError) :
    ∀ ops : List (RegOp σ), (∀ op ∈ ops, RegOp.isIns op = false) →
      ∀ subs : List σ,
        List.Sublist (runOps validate subs ops)
          (subs ++ admittedSeq validate subs ops) := by
  intro ops
  induction ops with
  | nil =>
    intro _ subs
    simp [runOps, admittedSeq]
  | cons op ops ih =>
    intro hno subs
    have hop : RegOp.isIns op = false := hno op (List.mem_cons_self op ops)
    have hops : ∀ o ∈ ops, RegOp.isIns o = false :=
      fun o ho => hno o (List.mem_cons_of_mem op ho)
    cases op with
    | ins i s => simp [RegOp.isIns] at hop
    | add s =>
      have hrun : runOps validate subs (RegOp.add s :: ops)
          = runOps validate (applyOp validate subs (RegOp.add s)).1 ops := rfl
      by_cases hadm : validate s = Option.none ∧ s ∉ subs
      · have hsubs2 : (applyOp validate subs (RegOp.add s)).1 = subs ++ [s] := by
          simp [applyOp, eventAdd, hadm.1, hadm.2]
        have hadmseq : admittedSeq validate subs (RegOp.add s :: ops)
            = s :: admittedSeq validate (subs ++ [s]) ops := by
          rw [admittedSeq]
          rw [if_pos hadm, hsubs2]
        rw [hrun, hsubs2, hadmseq]
        have ih2 := ih hops (subs ++ [s])
        have hassoc : subs ++ s :: admittedSeq validate (subs ++ [s]) ops
            = (subs ++ [s]) ++ admittedSeq validate (subs ++ [s]) ops := by
          rw [List.append_assoc]
          rfl
        rw [hassoc]
        exact ih2
      · have hsubs2 : (applyOp validate subs (RegOp.add s)).1 = subs := by
          simp only [applyOp, eventAdd]
          cases hv : validate s with
          | some e => rfl
          | none =>
            have hm : s ∈ subs := by
              by_contra hm
              exact hadm ⟨hv, hm⟩
            simp [hm]
        have hadmseq : admittedSeq validate subs (RegOp.add s :: ops)
            = admittedSeq validate subs ops := by
          rw [admittedSeq]
          rw [if_neg hadm, hsubs2]
        rw [hrun, hsubs2, hadmseq]
        exact ih hops subs
    | remove s =>
      have hrun : runOps validate subs (RegOp.remove s :: ops)
          = runOps validate (applyOp validate subs (RegOp.remove s)).1 ops := rfl
      have hsub2 : List.Sublist (applyOp validate subs (RegOp.remove s)).1 subs := by
        simp only [applyOp, eventRemove]
        by_cases hm : s ∈ subs
        · simpa [hm] using List.erase_sublist s subs
        · simp [hm]
      have hadmseq : admittedSeq validate subs (RegOp.remove s :: ops)
          = admittedSeq validate (applyOp validate subs (RegOp.remove s)).1 ops := by
        rw [admittedSeq]
      rw [hrun, hadmseq]
      exact (ih hops _).trans
        (List.Sublist.append_right hsub2 _)

theorem strCall_subsAfter (e : StrEvent) (subs : List StrSub)
    (args : List PyVal) : (StrEvent.call e subs args).subsAfter = subs := by
  unfold StrEvent.call
  split <;> rfl

theorem refCall_subsAfter (e : RefEvent) (subs : List RefSub)
    (args : List PyVal) : (RefEvent.call e subs args).subsAfter = subs := by
  unfold RefEvent.call
  split
  · rfl
  split
  · rfl
  split <;> rfl

theorem strCall_filter (e : StrEvent) (subs : List StrSub)
    (args : List PyVal) :
    StrEvent.call e (subs.filter (fun s => !StrSub.isNone s)) args
      = ⟨subs.filter (fun s => !StrSub.isNone s),
         (StrEvent.call e subs args).trace,
         (StrEvent.call e subs args).err⟩ := by
  by_cases h : args.length ≠ e.params.length
  · simp only [StrEvent.call, if_pos h]
  · simp only [StrEvent.call, if_neg h, strFan_filter]

theorem refCall_filter (e : RefEvent) (subs : List RefSub)
    (args : List PyVal) :
    RefEvent.call e (subs.filter (fun s => !RefSub.isNone s)) args
      = ⟨subs.filter (fun s => !RefSub.isNone s),
         (RefEvent.call e subs args).trace,
         (RefEvent.call e subs args).err⟩ := by
  by_cases h1 : args.length > e.param_types.length
  · simp only [RefEvent.call, if_pos h1]
  by_cases h2 : args.length < e.param_types.length
  · simp only [RefEvent.call, if_neg h1, if_pos h2]
  cases hs : refSoftCheck args e.param_types with
  | some err => simp only [RefEvent.call, if_neg h1, if_neg h2, hs]
  | none => simp only [RefEvent.call, if_neg h1, if_neg h2, hs, refFan_filter]

/- ## Claims -/

/-- C1: the claim says a non-null subscriber that does not expose an
invocable method named after the callback is silently skipped with no
error, and fan-out continues.  Evaluating StrEvent.__call__ on a registry
whose first subscriber lacks the attribute shows the opposite: two-argument
getattr raises AttributeError, the whole trace is empty, and the second
subscriber — which does carry the method — is never reached.  The dead
`function is not None` guard in the source shows the intended call was
getattr with a None default, so the slip is in the code. -/
theorem c1_missing_method_raises_attribute_error :
    StrEvent.call ⟨"on_event", ["data"]⟩
      [StrSub.obj 0 [], StrSub.obj 1 [("on_event", Attr.method 7)]]
      [PyVal.vstr "T"]
    = ⟨[StrSub.obj 0 [], StrSub.obj 1 [("on_event", Attr.method 7)]], [],
       some PyError.attributeError⟩ := by decide

/-- C2: the claim (and section 4.3 of the spec) says a per-position
annotation equal to the event type OR declared untyped/Any is accepted.
Evaluating _validate_subscriber against a one-string-typed event shows an
Any-annotated and an untyped one-parameter callable are both rejected with
SubscriberSignatureMismatchError, while an exactly matching annotation is
accepted: the source computes is_type_any as the conjunction
`annotation == Parameter.empty and annotation == Any`, which no annotation
satisfies.  The repository's own test test_ref_event__call admits an
Any-annotated handler to RefEvent(str) and therefore fails, so the slip is
in the code. -/
theorem c2_any_or_untyped_param_rejected :
    RefEvent.validate ⟨[PyType.strT]⟩ (RefSub.callable 0 [Ann.ty PyType.anyT])
      = some PyError.subscriberSignatureMismatch ∧
    RefEvent.validate ⟨[PyType.strT]⟩ (RefSub.callable 1 [Ann.empty])
      = some PyError.subscriberSignatureMismatch ∧
    RefEvent.validate ⟨[PyType.strT]⟩ (RefSub.callable 2 [Ann.ty PyType.strT])
      = Option.none := by decide

/-- C3: for every dispatcher (remove lives on the shared base class) and
every subscriber absent from the registry, remove fails with the
SubscriberNotFound kind — realised as the builtin ValueError of
list.remove, the class the repository's own unit test asserts — and the
registry is returned unchanged. -/
theorem c3_remove_absent_fails_registry_unchanged {σ : Type} [DecidableEq σ]
    (subs : List σ) (s : σ) (h : s ∉ subs) :
    eventRemove subs s = (subs, some PyError.valueError) := by
  simp [eventRemove, h]

/-- C3 witness at a concrete StrEvent registry. -/
theorem c3_remove_absent_witness :
    StrSub.obj 2 [] ∉ [StrSub.obj 1 []] ∧
    eventRemove [StrSub.obj 1 []] (StrSub.obj 2 [])
      = ([StrSub.obj 1 []], some PyError.valueError) :=
  ⟨by decide,
    c3_remove_absent_fails_registry_unchanged [StrSub.obj 1 []]
      (StrSub.obj 2 []) (by decide)⟩

/-- C4 counterexample: with contract (int,), invoking with one string
argument raises exactly the same exception class as invoking with a wrong
argument count — EventCallParameterListMismatchError — so the error raised
on an argument type mismatch is not a kind distinct from the
argument-count kind, contrary to the claim. -/
theorem c4_counterexample_same_error_class :
    (RefEvent.call ⟨[PyType.intT]⟩ [RefSub.callable 0 [Ann.ty PyType.intT]]
      [PyVal.vstr "x"]).err
      = (RefEvent.call ⟨[PyType.intT]⟩ [RefSub.callable 0 [Ann.ty PyType.intT]]
        []).err ∧
    (RefEvent.call ⟨[PyType.intT]⟩ [RefSub.callable 0 [Ann.ty PyType.intT]]
      [PyVal.vstr "x"]).err
      = some PyError.eventCallParameterListMismatch := by decide

/-- C4 amended: with the correct argument count, an argument whose runtime
type fails the soft check makes the RefEvent call fail with
EventCallParameterListMismatchError — the same class used for a count
mismatch, distinguished only by message — aborting before any subscriber
is called (empty trace) and leaving the registry untouched. -/
theorem c4_type_mismatch_aborts_before_fanout (e : RefEvent)
    (subs : List RefSub) (args : List PyVal)
    (hlen : args.length = e.param_types.length)
    (hbad : refSoftCheck args e.param_types ≠ Option.none) :
    RefEvent.call e subs args
      = ⟨subs, [], some PyError.eventCallParameterListMismatch⟩ := by
  have h1 : ¬ args.length > e.param_types.length := by omega
  have h2 : ¬ args.length < e.param_types.length := by omega
  rcases refSoftCheck_err args e.param_types with h | h
  · exact absurd h hbad
  · unfold RefEvent.call
    rw [if_neg h1, if_neg h2, h]

/-- C4 witness at the contract (int,) with a string argument. -/
theorem c4_type_mismatch_witness :
    ([PyVal.vstr "x"].length = ([PyType.intT] : List PyType).length) ∧
    refSoftCheck [PyVal.vstr "x"] [PyType.intT] ≠ Option.none ∧
    RefEvent.call ⟨[PyType.intT]⟩ [RefSub.callable 0 [Ann.ty PyType.intT]]
      [PyVal.vstr "x"]
      = ⟨[RefSub.callable 0 [Ann.ty PyType.intT]], [],
         some PyError.eventCallParameterListMismatch⟩ :=
  ⟨by decide, by decide,
    c4_type_mismatch_aborts_before_fanout ⟨[PyType.intT]⟩
      [RefSub.callable 0 [Ann.ty PyType.intT]] [PyVal.vstr "x"]
      (by decide) (by decide)⟩

/-- C5: in both variants, invoking with a number of positional arguments
different from the declared contract arity raises
EventCallParameterListMismatchError and aborts the entire invocation
before any subscriber is called: the trace is empty and the registry is
exactly the input registry. -/
theorem c5_arity_mismatch_aborts (se : StrEvent) (ssubs : List StrSub)
    (args1 : List PyVal) (re : RefEvent) (rsubs : List RefSub)
    (args2 : List PyVal) (h1 : args1.length ≠ se.params.length)
    (h2 : args2.length ≠ re.param_types.length) :
    StrEvent.call se ssubs args1
      = ⟨ssubs, [], some PyError.eventCallParameterListMismatch⟩ ∧
    RefEvent.call re rsubs args2
      = ⟨rsubs, [], some PyError.eventCallParameterListMismatch⟩ := by
  constructor
  · unfold StrEvent.call
    rw [if_pos h1]
  · unfold RefEvent.call
    rcases Nat.lt_or_ge args2.length re.param_types.length with h | h
    · have hg : ¬ args2.length > re.param_types.length := by omega
      rw [if_neg hg, if_pos h]
    · have hg : args2.length > re.param_types.length := by omega
      rw [if_pos hg]

/-- C5 witness: a one-parameter StrEvent invoked with no argument and a
one-type RefEvent invoked with two arguments. -/
theorem c5_arity_mismatch_witness :
    (([] : List PyVal).length ≠ (["data"] : List String).length) ∧
    ([PyVal.vstr "a", PyVal.vstr "b"].length
      ≠ ([PyType.strT] : List PyType).length) ∧
    StrEvent.call ⟨"on_event", ["data"]⟩
        [StrSub.obj 1 [("on_event", Attr.method 7)]] []
      = ⟨[StrSub.obj 1 [("on_event", Attr.method 7)]], [],
         some PyError.eventCallParameterListMismatch⟩ ∧
    RefEvent.call ⟨[PyType.strT]⟩ [RefSub.callable 0 [Ann.ty PyType.strT]]
        [PyVal.vstr "a", PyVal.vstr "b"]
      = ⟨[RefSub.callable 0 [Ann.ty PyType.strT]], [],
         some PyError.eventCallParameterListMismatch⟩ := by
  have h := c5_arity_mismatch_aborts ⟨"on_event", ["data"]⟩
    [StrSub.obj 1 [("on_event", Attr.method 7)]] [] ⟨[PyType.strT]⟩
    [RefSub.callable 0 [Ann.ty PyType.strT]] [PyVal.vstr "a", PyVal.vstr "b"]
    (by decide) (by decide)
  exact ⟨by decide, by decide, h.1, h.2⟩

/-- C6 counterexample: with the subscriber already present (it passes
StrEvent validation, which accepts anything), add is a dedup no-op and
remove then deletes the pre-existing entry, so add-then-remove drops
count() from 1 to 0 instead of restoring it. -/
theorem c6_counterexample_present_subscriber :
    (eventRemove
      (eventAdd (StrEvent.validate ⟨"on_event", []⟩) [StrSub.obj 0 []]
        (StrSub.obj 0 [])).1
      (StrSub.obj 0 [])).1.length
      ≠ ([StrSub.obj 0 []] : List StrSub).length := by decide

/-- C6 amended: for every dispatcher and every subscriber that passes
validation and is not already present, add followed by remove raises
nothing and restores the registry — and with it count() — to exactly its
prior value.  (When the subscriber was already present, add is a no-op and
remove deletes the old entry, so the count drops by one.) -/
theorem c6_add_then_remove_restores {σ : Type} [DecidableEq σ]
    (validate : σ → Option PyError) (subs : List σ) (s : σ)
    (hv : validate s = Option.none) (hnot : s ∉ subs) :
    (eventAdd validate subs s).2 = Option.none ∧
    eventRemove (eventAdd validate subs s).1 s = (subs, Option.none) := by
  have hadd : eventAdd validate subs s = (subs ++ [s], Option.none) := by
    simp [eventAdd, hv, hnot]
  rw [hadd]
  refine ⟨rfl, ?_⟩
  have hmem : s ∈ subs ++ [s] := by simp
  have herase : (subs ++ [s]).erase s = subs := by
    rw [List.erase_append_right _ hnot]
    simp
  rw [eventRemove, if_pos hmem, herase]

/-- C6 witness at a concrete RefEvent dispatcher. -/
theorem c6_add_then_remove_witness :
    RefEvent.validate ⟨[PyType.strT]⟩ (RefSub.callable 5 [Ann.ty PyType.strT])
      = Option.none ∧
    RefSub.callable 5 [Ann.ty PyType.strT]
      ∉ [RefSub.callable 4 [Ann.ty PyType.strT]] ∧
    eventRemove
      (eventAdd (RefEvent.validate ⟨[PyType.strT]⟩)
        [RefSub.callable 4 [Ann.ty PyType.strT]]
        (RefSub.callable 5 [Ann.ty PyType.strT])).1
      (RefSub.callable 5 [Ann.ty PyType.strT])
      = ([RefSub.callable 4 [Ann.ty PyType.strT]], Option.none) :=
  ⟨by decide, by decide,
    (c6_add_then_remove_restores (RefEvent.validate ⟨[PyType.strT]⟩)
      [RefSub.callable 4 [Ann.ty PyType.strT]]
      (RefSub.callable 5 [Ann.ty PyType.strT]) (by decide) (by decide)).2⟩

/-- C7: admission is idempotent — add, and insert at any index, with a
valid subscriber already present in the registry return the registry
exactly unchanged (contents, order and count) and raise nothing. -/
theorem c7_admission_idempotent {σ : Type} [DecidableEq σ]
    (validate : σ → Option PyError) (subs : List σ) (s : σ) (i : Int)
    (hv : validate s = Option.none) (hin : s ∈ subs) :
    eventAdd validate subs s = (subs, Option.none) ∧
    eventInsert validate subs i s = (subs, Option.none) := by
  constructor
  · simp [eventAdd, hv, hin]
  · simp [eventInsert, hv, hin]

/-- C7 witness: re-adding and re-inserting (at index 0) the already-present
head of a concrete two-element StrEvent registry. -/
theorem c7_admission_idempotent_witness :
    StrEvent.validate ⟨"e", []⟩ (StrSub.obj 1 []) = Option.none ∧
    StrSub.obj 1 [] ∈ [StrSub.obj 1 [], StrSub.obj 2 []] ∧
    eventAdd (StrEvent.validate ⟨"e", []⟩) [StrSub.obj 1 [], StrSub.obj 2 []]
        (StrSub.obj 1 [])
      = ([StrSub.obj 1 [], StrSub.obj 2 []], Option.none) ∧
    eventInsert (StrEvent.validate ⟨"e", []⟩)
        [StrSub.obj 1 [], StrSub.obj 2 []] 0 (StrSub.obj 1 [])
      = ([StrSub.obj 1 [], StrSub.obj 2 []], Option.none) := by
  have h := c7_admission_idempotent (StrEvent.validate ⟨"e", []⟩)
    [StrSub.obj 1 [], StrSub.obj 2 []] (StrSub.obj 1 []) 0
    (by decide) (by decide)
  exact ⟨by decide, by decide, h.1, h.2⟩

/-- C8 counterexample: from an empty registry, add subscriber a and then
insert subscriber b at index 0.  Both are admitted, a before b, but the
resulting registry reads b before a: the registry is not an ordered
subsequence of the admission sequence, so entries do not appear in the
order they were admitted once insert is involved. -/
theorem c8_counterexample_insert_breaks_admission_order :
    runOps (StrEvent.validate ⟨"e", []⟩) []
        [RegOp.add (StrSub.obj 1 []), RegOp.ins 0 (StrSub.obj 2 [])]
      = [StrSub.obj 2 [], StrSub.obj 1 []] ∧
    admittedSeq (StrEvent.validate ⟨"e", []⟩) []
        [RegOp.add (StrSub.obj 1 []), RegOp.ins 0 (StrSub.obj 2 [])]
      = [StrSub.obj 1 [], StrSub.obj 2 []] ∧
    ¬ List.Sublist
        (runOps (StrEvent.validate ⟨"e", []⟩) []
          [RegOp.add (StrSub.obj 1 []), RegOp.ins 0 (StrSub.obj 2 [])])
        (admittedSeq (StrEvent.validate ⟨"e", []⟩) []
          [RegOp.add (StrSub.obj 1 []), RegOp.ins 0 (StrSub.obj 2 [])]) :=
  ⟨by decide, by decide, by decide⟩

/-- C8 amended: starting from an empty registry, after any interleaved
sequence of add, insert and remove operations the subscriber list contains
no duplicate entries by equality; and when the sequence contains no insert,
the entries moreover appear in the order they were admitted — the registry
is an ordered subsequence of the admission sequence.  (Insert places an
admitted subscriber at an arbitrary clamped position and can therefore
break admission order.) -/
theorem c8_nodup_invariant_and_admission_order {σ : Type} [DecidableEq σ]
    (validate : σ → Option PyError) (ops : List (RegOp σ)) :
    (runOps validate [] ops).Nodup ∧
    ((∀ op ∈ ops, RegOp.isIns op = false) →
      List.Sublist (runOps validate [] ops) (admittedSeq validate [] ops)) := by
  constructor
  · exact runOps_nodup validate ops [] List.nodup_nil
  · intro hno
    simpa using runOps_sublist_admitted validate ops hno []

/-- C8 witness: a concrete add/add/remove/add run. -/
theorem c8_nodup_invariant_witness :
    (runOps (StrEvent.validate ⟨"e", []⟩) []
      [RegOp.add (StrSub.obj 1 []), RegOp.add (StrSub.obj 2 []),
       RegOp.remove (StrSub.obj 1 []), RegOp.add (StrSub.obj 1 [])]).Nodup ∧
    List.Sublist
      (runOps (StrEvent.validate ⟨"e", []⟩) []
        [RegOp.add (StrSub.obj 1 []), RegOp.add (StrSub.obj 2 []),
         RegOp.remove (StrSub.obj 1 []), RegOp.add (StrSub.obj 1 [])])
      (admittedSeq (StrEvent.validate ⟨"e", []⟩) []
        [RegOp.add (StrSub.obj 1 []), RegOp.add (StrSub.obj 2 []),
         RegOp.remove (StrSub.obj 1 []), RegOp.add (StrSub.obj 1 [])]) :=
  ⟨(c8_nodup_invariant_and_admission_order (StrEvent.validate ⟨"e", []⟩)
      [RegOp.add (StrSub.obj 1 []), RegOp.add (StrSub.obj 2 []),
       RegOp.remove (StrSub.obj 1 []), RegOp.add (StrSub.obj 1 [])]).1,
   (c8_nodup_invariant_and_admission_order (StrEvent.validate ⟨"e", []⟩)
      [RegOp.add (StrSub.obj 1 []), RegOp.add (StrSub.obj 2 []),
       RegOp.remove (StrSub.obj 1 []), RegOp.add (StrSub.obj 1 [])]).2
     (by decide)⟩

/-- C9: in both variants invoke never writes the registry — null entries in
particular remain in it afterward — and null entries are skipped without
being called and without raising: the trace and the escaping exception of
an invocation on a registry with its null entries filtered away are
identical to those of the invocation on the full registry. -/
theorem c9_null_entries_skipped_and_kept (se : StrEvent)
    (ssubs : List StrSub) (args1 : List PyVal) (re : RefEvent)
    (rsubs : List RefSub) (args2 : List PyVal) :
    (StrEvent.call se ssubs args1).subsAfter = ssubs ∧
    (RefEvent.call re rsubs args2).subsAfter = rsubs ∧
    StrEvent.call se (ssubs.filter (fun s => !StrSub.isNone s)) args1
      = ⟨ssubs.filter (fun s => !StrSub.isNone s),
         (StrEvent.call se ssubs args1).trace,
         (StrEvent.call se ssubs args1).err⟩ ∧
    RefEvent.call re (rsubs.filter (fun s => !RefSub.isNone s)) args2
      = ⟨rsubs.filter (fun s => !RefSub.isNone s),
         (RefEvent.call re rsubs args2).trace,
         (RefEvent.call re rsubs args2).err⟩ :=
  ⟨strCall_subsAfter se ssubs args1, refCall_subsAfter re rsubs args2,
   strCall_filter se ssubs args1, refCall_filter re rsubs args2⟩

/-- C10: inserting a valid, not-yet-present subscriber never fails on any
integer index: no exception is raised, the subscriber is placed at the
position clamped to the list bounds exactly as Python list.insert does,
the clamped position is within bounds, and count() grows by exactly
one. -/
theorem c10_insert_any_index_succeeds {σ : Type} [DecidableEq σ]
    (validate : σ → Option PyError) (subs : List σ) (i : Int) (s : σ)
    (hv : validate s = Option.none) (hnot : s ∉ subs) :
    eventInsert validate subs i s
      = (subs.take (pyClampIdx i subs.length) ++ s ::
          subs.drop (pyClampIdx i subs.length), Option.none) ∧
    (eventInsert validate subs i s).1.length = subs.length + 1 ∧
    pyClampIdx i subs.length ≤ subs.length := by
  have hins : eventInsert validate subs i s
      = (pyListInsert i s subs, Option.none) := by
    simp [eventInsert, hv, hnot]
  refine ⟨by rw [hins]; rfl, ?_, pyClampIdx_le i subs.length⟩
  rw [hins]
  exact pyListInsert_length i s subs

/-- C10 witness: inserting at the far-out-of-range index -5 into a
two-element registry succeeds and lands the subscriber at the front. -/
theorem c10_insert_any_index_witness :
    StrEvent.validate ⟨"e", []⟩ (StrSub.obj 3 []) = Option.none ∧
    StrSub.obj 3 [] ∉ [StrSub.obj 1 [], StrSub.obj 2 []] ∧
    (eventInsert (StrEvent.validate ⟨"e", []⟩)
      [StrSub.obj 1 [], StrSub.obj 2 []] (-5) (StrSub.obj 3 [])).1.length
      = 3 :=
  ⟨rfl, by decide,
    by
      have h := c10_insert_any_index_succeeds (StrEvent.validate ⟨"e", []⟩)
        [StrSub.obj 1 [], StrSub.obj 2 []] (-5) (StrSub.obj 3 [])
        rfl (by decide)
      simpa using h.2.1⟩
